import Mathlib

/-!
Verification of the pyswashes output-parsing and reshaping logic
(`src/pyswashes/pyswashes.py`).  The Python code is shallowly embedded:
strings are Lean `String`s processed through explicit character-list
recursions (so that every definition is executable and kernel-reducible),
Python numbers (ints and floats) are modelled as exact rationals `ℚ`,
fallible code returns `Except PyError`.  Each Python runtime error kind
that the embedded code can raise is one `PyError` constructor.
-/

namespace PySwashes

/-- Python exception kinds raised by the embedded code paths.
`keyError` models `KeyError` (dictionary / dataframe column lookup,
the ParseError of the spec taxonomy), `valueError` models `ValueError`
(InvalidArgument), `runtimeError` models the `RuntimeError` raised by
`_compute` (ExternalToolError: it carries the stripped stderr text and
the invocation parameters), `unboundLocalError` models reading the
loop-local `next_line` before its first assignment, `assertionError`
models a failing `assert`, `indexError` models a list index out of
range, `typeError` models `int(None)`. -/
inductive PyError where
  | keyError : String → PyError
  | valueError : PyError
  | runtimeError : String → List ℚ → PyError
  | unboundLocalError : PyError
  | assertionError : PyError
  | indexError : PyError
  | typeError : PyError
  deriving DecidableEq, Repr

instance {ε α : Type} [DecidableEq ε] [DecidableEq α] : DecidableEq (Except ε α)
  | .error a, .error b =>
    if h : a = b then isTrue (by rw [h]) else isFalse (fun hc => by cases hc; exact h rfl)
  | .error _, .ok _ => isFalse (fun hc => by cases hc)
  | .ok _, .error _ => isFalse (fun hc => by cases hc)
  | .ok a, .ok b =>
    if h : a = b then isTrue (by rw [h]) else isFalse (fun hc => by cases hc; exact h rfl)

/-! ## Character-level helpers (Python string operations) -/

/-- Python whitespace test for the ASCII characters that occur in solver output. -/
def isWsChar (c : Char) : Bool :=
  c == ' ' || c == '\t' || c == '\n' || c == '\r'

/-- `s.strip()` on a character list: drop leading and trailing whitespace. -/
def stripChars (cs : List Char) : List Char :=
  ((cs.dropWhile isWsChar).reverse.dropWhile isWsChar).reverse

/-- Python `s.strip()`. -/
def pyStrip (s : String) : String :=
  String.mk (stripChars s.toList)

/-- Python `s.lstrip('#')`: drop every leading `'#'`. -/
def lstripHash (s : String) : String :=
  String.mk (s.toList.dropWhile (fun c => c == '#'))

/-- Worker for `pySplitWs`: split on whitespace runs, discarding empty fields. -/
def pySplitWsAux : List Char → List Char → List String
  | [], acc => if acc.isEmpty then [] else [String.mk acc.reverse]
  | c :: rest, acc =>
    if isWsChar c then
      if acc.isEmpty then pySplitWsAux rest []
      else String.mk acc.reverse :: pySplitWsAux rest []
    else pySplitWsAux rest (c :: acc)

/-- Python `s.split()` with no argument: split on whitespace runs, no empty fields. -/
def pySplitWs (s : String) : List String :=
  pySplitWsAux s.toList []

/-- Python `s.startswith(pre)`, via an explicit character comparison. -/
def leadsWith : List Char → List Char → Bool
  | [], _ => true
  | _ :: _, [] => false
  | p :: ps, c :: cs => p == c && leadsWith ps cs

/-- Python `s.startswith(pre)`. -/
def startsWithStr (s pre : String) : Bool :=
  leadsWith pre.toList s.toList

/-- `current_line.startswith('#')`: the comment test of `_read_output`. -/
def isComment (s : String) : Bool :=
  startsWithStr s "#"

/-- Split a character list on a separator character; `n` separators give
`n + 1` fields (Python `str.split(sep)` semantics). -/
def splitOnChar (sep : Char) : List Char → List (List Char)
  | [] => [[]]
  | c :: rest =>
    let r := splitOnChar sep rest
    if c == sep then [] :: r else (c :: r.headD []) :: r.tail

/-- Python `str.splitlines()` for line-feed separated text. -/
def pySplitlines (s : String) : List String :=
  match s.toList with
  | [] => []
  | cs =>
    let parts := (splitOnChar '\n' cs).map String.mk
    if cs.getLast? = some '\n' then parts.dropLast else parts

/-- Python `sep.join(l)`. -/
def joinSep (sep : String) : List String → String
  | [] => ""
  | [x] => x
  | x :: xs => x ++ sep ++ joinSep sep xs

/-- Concatenation of a list of strings. -/
def concatStrs : List String → String
  | [] => ""
  | s :: rest => s ++ concatStrs rest

/-! ## Column-label dictionaries (`SWASHES.COLS`, `TwoDimensional.COLS`) -/

/-- Module-level pandas column-name constant `X`. -/
def X : String := "x"

/-- Module-level pandas column-name constant `Y`. -/
def Y : String := "y"

/-- Module-level pandas column-name constant `DEPTH`. -/
def DEPTH : String := "depth"

/-- Module-level pandas column-name constant `HEAD`. -/
def HEAD : String := "head"

/-- Module-level pandas column-name constant `CRIT_HEAD`. -/
def CRIT_HEAD : String := "crit_head"

/-- Module-level pandas column-name constant `VEL1D` (also `VEL_X`). -/
def VEL1D : String := "u"

/-- Module-level pandas column-name constant `VEL_Y`. -/
def VEL_Y : String := "v"

/-- Module-level pandas column-name constant `VEL2D` (velocity norm). -/
def VEL2D : String := "U"

/-- Module-level pandas column-name constant `GD_ELEVATION`. -/
def GD_ELEVATION : String := "gd_elev"

/-- Module-level pandas column-name constant `FLOW`. -/
def FLOW : String := "q"

/-- Module-level pandas column-name constant `FLOW_X`. -/
def FLOW_X : String := "qx"

/-- Module-level pandas column-name constant `FLOW_Y`. -/
def FLOW_Y : String := "qy"

/-- Module-level pandas column-name constant `FROUDE`. -/
def FROUDE : String := "Froude"

/-- `SWASHES.COLS`: label-to-canonical-name dictionary of the base class,
used by the 1-D and pseudo-2-D solutions. -/
def COLS : List (String × String) :=
  [("(i-0.5)*dx", X), ("h[i]", DEPTH), ("u[i]", VEL1D),
   ("topo[i]", GD_ELEVATION), ("q[i]", FLOW), ("topo[i]+h[i]", HEAD),
   ("Fr[i]=Froude", FROUDE), ("topo[i]+hc[i]", CRIT_HEAD)]

/-- `TwoDimensional.COLS`: label-to-canonical-name dictionary of the 2-D variant. -/
def COLS2D : List (String × String) :=
  [("(i-0.5)*dx", X), ("(j-0.5)*dy", Y), ("h[i][j]", DEPTH),
   ("u[i][j]", VEL1D), ("v[i][j]", VEL_Y),
   ("topo[i][j]+h[i][j]", HEAD), ("topo[i][j]", GD_ELEVATION),
   ("||U||[i][j]", VEL2D), ("Fr[i][j]", FROUDE),
   ("qx[i][j]", FLOW_X), ("qy[i][j]", FLOW_Y), ("q[i][j]", FLOW)]

/-- Python dictionary lookup `d[k]` on an association list (keys are unique). -/
def lookupPairs : List (String × String) → String → Option String
  | [], _ => none
  | (a, b) :: rest, k => if a == k then some b else lookupPairs rest k

/-- `[self.COLS[h] for h in raw_col_headers]`: map every raw header token
through the dictionary; the first missing key raises `KeyError`. -/
def lookupCols (cols : List (String × String)) : List String → Except PyError (List String)
  | [] => .ok []
  | h :: t =>
    match lookupPairs cols h with
    | none => .error (.keyError h)
    | some v =>
      match lookupCols cols t with
      | .error e => .error e
      | .ok vs => .ok (v :: vs)

/-! ## `SWASHES._read_output`

The Python loop walks the stdout lines with an index.  The loop-local
variable `next_line` is assigned only while `idx < len(out_lines) - 1`,
so on the final iteration it retains the value of the previous
iteration (which is the final line itself), and on a single-line input
it is read before ever being assigned whenever the line is a comment
(`UnboundLocalError`); when the line is not a comment the `and`
short-circuit never reads it.  The `Option String` argument of
`readOutputGo` is the current value of `next_line` (`none` = unbound). -/

/-- One pass of the `_read_output` loop over the remaining lines,
carrying the `next_line` variable and the `raw_comments` / `results`
accumulators. -/
def readOutputGo (cols : List (String × String)) :
    List String → Option String → List String → List (List String) →
    Except PyError (List String × List (List String))
  | [], _, comments, results => .ok (comments, results)
  | cur :: rest, nv0, comments, results =>
    let nv : Option String := match rest with | [] => nv0 | n :: _ => some n
    if isComment cur then
      match nv with
      | none => .error .unboundLocalError
      | some nl =>
        if isComment nl then
          readOutputGo cols rest nv (comments ++ [pyStrip (lstripHash cur)]) results
        else
          match lookupCols cols (pySplitWs (lstripHash cur)) with
          | .error e => .error e
          | .ok hdr => readOutputGo cols rest nv comments (results ++ [hdr])
    else
      readOutputGo cols rest nv comments (results ++ [pySplitWs cur])

/-- `SWASHES._read_output` on an already split line list: returns the
accumulated `(raw_comments, results)` pair. -/
def readOutput (cols : List (String × String)) (lines : List String) :
    Except PyError (List String × List (List String)) :=
  readOutputGo cols lines none [] []

/-- `SWASHES._read_output` on the raw stdout text (`raw_output.splitlines()`). -/
def readOutputStr (cols : List (String × String)) (raw : String) :
    Except PyError (List String × List (List String)) :=
  readOutput cols (pySplitlines raw)


/-! ## Numbers: Python `int()` and `float()` on the values in play

All numeric values are modelled as exact rationals.  The floating-point
representation of the real code can differ from the exact value for
non-dyadic decimals; none of the verified claims depend on that gap. -/

/-- Python `int(q)` on a float: truncation toward zero. -/
def pyIntOfRat (q : ℚ) : Int :=
  Int.tdiv q.num (Int.ofNat q.den)

/-- Digit value of an ASCII digit character. -/
def digitVal (c : Char) : Nat := c.toNat - 48

/-- Decimal value of a digit list. -/
def natOfDigits (ds : List Char) : Nat :=
  ds.foldl (fun a c => a * 10 + digitVal c) 0

/-- Exponent field of a float literal (after `e`/`E`): optional sign, digits. -/
def parseExpPart (cs : List Char) : Option Int :=
  match cs with
  | '+' :: rest =>
    if rest.isEmpty || !rest.all Char.isDigit then none
    else some (Int.ofNat (natOfDigits rest))
  | '-' :: rest =>
    if rest.isEmpty || !rest.all Char.isDigit then none
    else some (Int.neg (Int.ofNat (natOfDigits rest)))
  | rest =>
    if rest.isEmpty || !rest.all Char.isDigit then none
    else some (Int.ofNat (natOfDigits rest))

/-- Mantissa of a float literal: `D+`, `D+.D*` or `D*.D+`.
Returns the digit string value and the number of fractional digits. -/
def parseMantissa (cs : List Char) : Option (Nat × Nat) :=
  let ip := cs.takeWhile Char.isDigit
  let rest := cs.drop ip.length
  match rest with
  | [] => if ip.isEmpty then none else some (natOfDigits ip, 0)
  | '.' :: fp =>
    if !fp.all Char.isDigit then none
    else if ip.isEmpty && fp.isEmpty then none
    else some (natOfDigits (ip ++ fp), fp.length)
  | _ => none

/-- Python `float(s)` on the decimal literals found in solver comments:
surrounding whitespace is stripped, an optional sign, a decimal
mantissa and an optional decimal exponent are accepted; anything else
raises `ValueError` (`none` here).  The special tokens `inf`/`nan` and
underscore separators are not modelled. -/
def pyFloat (s : String) : Option ℚ :=
  let cs := stripChars s.toList
  let signAndRest : Bool × List Char :=
    match cs with
    | '-' :: r => (true, r)
    | '+' :: r => (false, r)
    | r => (false, r)
  let neg := signAndRest.1
  let cs1 := signAndRest.2
  let mant := cs1.takeWhile (fun c => !(c == 'e' || c == 'E'))
  let rest := cs1.drop mant.length
  let expPart : Option Int :=
    match rest with
    | [] => some 0
    | _ :: r => parseExpPart r
  match parseMantissa mant, expPart with
  | some vfl, some e =>
    let sv : Int := if neg then Int.neg (Int.ofNat vfl.1) else Int.ofNat vfl.1
    match Int.sub e (Int.ofNat vfl.2) with
    | .ofNat k => some (mkRat (Int.mul sv (Int.ofNat (10 ^ k))) 1)
    | .negSucc k => some (mkRat sv (10 ^ (k + 1)))
  | _, _ => none

/-! ## `SWASHES._read_comments` -/

/-- Everything after the last `':'` (Python `s.rpartition(':')[2]`,
which is the whole string when there is no colon). -/
def afterLastColon (cs : List Char) : List Char :=
  (cs.reverse.takeWhile (fun c => !(c == ':'))).reverse

/-- `SWASHES.get_number_from_str`:
`float(string.strip().rpartition(':')[2].strip().split()[0].strip())`.
An empty remainder raises `IndexError` (from `split()[0]`), a
non-numeric token raises `ValueError` (from `float`). -/
def getNumberFromStr (s : String) : Except PyError ℚ :=
  let tail := stripChars (afterLastColon (stripChars s.toList))
  match pySplitWs (String.mk tail) with
  | [] => .error .indexError
  | w :: _ =>
    match pyFloat (pyStrip w) with
    | none => .error .valueError
    | some q => .ok q

/-- `self.dom_params`: the domain-parameter dictionary; every value
starts out as `None`. -/
structure DomParams where
  length : Option ℚ := none
  width : Option ℚ := none
  dx : Option ℚ := none
  dy : Option ℚ := none
  ncellx : Option ℚ := none
  ncelly : Option ℚ := none
  deriving DecidableEq, Repr

/-- `dom_params[key] = v` for the six known keys. -/
def setDomParam (dp : DomParams) (key : String) (v : ℚ) : DomParams :=
  if key == "length" then { dp with length := some v }
  else if key == "width" then { dp with width := some v }
  else if key == "dx" then { dp with dx := some v }
  else if key == "dy" then { dp with dy := some v }
  else if key == "ncellx" then { dp with ncellx := some v }
  else if key == "ncelly" then { dp with ncelly := some v }
  else dp

/-- `sol_param_keys` of `_read_comments`, in Python dict insertion order. -/
def sol_param_keys : List (String × List String) :=
  [("length", ["Length of the domain:"]),
   ("width", ["Width of the domain:"]),
   ("dx", ["Space step in x:", "Space step:"]),
   ("dy", ["Space step in y:"]),
   ("ncellx", ["Number of cells in x:", "Number of cells:"]),
   ("ncelly", ["Number of cells in y:"])]

/-- The four coherence labels `[DIM, STYPE, DOMAIN, CHOICE]` with their
`enumerate` index into `self.params`. -/
def coherenceLabels : List (String × Nat) :=
  [("Dimension:", 0), ("Type:", 1), ("Domain:", 2), ("Choice:", 3)]

/-- The coherence loop of `_read_comments`: for each label the line
starts with, parse its number and `assert param_val == float(self.params[idx])`. -/
def checkCoherence (params : List ℚ) (line : String) :
    List (String × Nat) → Except PyError Unit
  | [] => .ok ()
  | (lbl, idx) :: rest =>
    if startsWithStr line lbl then
      match getNumberFromStr line with
      | .error e => .error e
      | .ok v =>
        match params.get? idx with
        | none => .error .indexError
        | some p => if v = p then checkCoherence params line rest else .error .assertionError
    else checkCoherence params line rest

/-- Inner keyword loop: each matching keyword stores the parsed number
under `key`. -/
def applyKeywordList (line : String) (key : String) :
    List String → DomParams → Except PyError DomParams
  | [], dp => .ok dp
  | kw :: rest, dp =>
    if startsWithStr line kw then
      match getNumberFromStr line with
      | .error e => .error e
      | .ok v => applyKeywordList line key rest (setDomParam dp key v)
    else applyKeywordList line key rest dp

/-- Outer keyword loop over `sol_param_keys`. -/
def applyParamKeys (line : String) :
    List (String × List String) → DomParams → Except PyError DomParams
  | [], dp => .ok dp
  | (key, kws) :: rest, dp =>
    match applyKeywordList line key kws dp with
    | .error e => .error e
    | .ok dp2 => applyParamKeys line rest dp2

/-- The per-line body of `_read_comments`: skip empty lines, record
provenance, run the coherence asserts, then the keyword extraction. -/
def scanCommentsGo (params : List ℚ) :
    List String → DomParams → Option String →
    Except PyError (DomParams × Option String)
  | [], dp, g => .ok (dp, g)
  | line :: rest, dp, g =>
    if line == "" then scanCommentsGo params rest dp g
    else
      let g2 := if startsWithStr line "Generated by" then some (pyStrip line) else g
      match checkCoherence params line coherenceLabels with
      | .error e => .error e
      | .ok _ =>
        match applyParamKeys line sol_param_keys dp with
        | .error e => .error e
        | .ok dp2 => scanCommentsGo params rest dp2 g2

/-- The line-scanning phase of `_read_comments`. -/
def scanComments (params : List ℚ) (lines : List String) :
    Except PyError (DomParams × Option String) :=
  scanCommentsGo params lines {} none

/-- The two final assertions of `_read_comments`:
`assert self.dom_params['ncellx'] == float(self.params[4])`, and when
`self.dom_params['ncelly'] is not None` also
`assert self.dom_params['ncelly'] == float(self.params[5])`.
A `None` value compared with a float is simply unequal; a missing
`params` index raises `IndexError`. -/
def finalAsserts (dp : DomParams) (params : List ℚ) : Except PyError Unit :=
  match params.get? 4 with
  | none => .error .indexError
  | some p4 =>
    if dp.ncellx ≠ some p4 then .error .assertionError
    else
      match dp.ncelly with
      | none => .ok ()
      | some ny =>
        match params.get? 5 with
        | none => .error .indexError
        | some p5 => if ny = p5 then .ok () else .error .assertionError

/-- `SWASHES._read_comments`: scan the accumulated comment lines, then
run the final consistency assertions.  Returns the populated
`dom_params` and the `generated_by` provenance. -/
def readComments (comments : List String) (params : List ℚ) :
    Except PyError (DomParams × Option String) :=
  match scanComments params comments with
  | .error e => .error e
  | .ok dpg =>
    match finalAsserts dpg.1 params with
    | .error e => .error e
    | .ok _ => .ok dpg

/-! ## `SWASHES.__init__` input sanity check and `SWASHES._compute` -/

/-- `SWASHES.DIMENSION_OK = [1., 1.5, 2.]`. -/
def DIMENSION_OK : List ℚ := [1, mkRat 3 2, 2]

/-- Python truthiness of the optional `num_cell_y` argument:
`not num_cell_y` is true for `None` and for `0`, and false for every
other integer (negative ones included). -/
def pyFalsy : Option Int → Bool
  | none => true
  | some n => n == 0

/-- The input sanity check of `SWASHES.__init__` and the construction of
`self.params`.  The `isinstance(p, int)` check is vacuous here because
the embedded arguments are typed as integers; the dimension is the
`float(dimension)` value.  On success the returned list is
`[dimension] + input_int`. -/
def checkInit (dimension : ℚ) (stype domain choice ncx : Int) (ncy : Option Int) :
    Except PyError (List ℚ) :=
  if dimension ∉ DIMENSION_OK then .error .valueError
  else if pyIntOfRat dimension == 2 && pyFalsy ncy then .error .valueError
  else .ok ([dimension, (stype : ℚ), (domain : ℚ), (choice : ℚ), (ncx : ℚ)] ++
    (match ncy with | none => [] | some y => [(y : ℚ)]))

/-- Outcome of the external solver process: exit status and the captured
output streams. -/
structure ProcResult where
  returncode : Int
  stdout : String
  stderr : String
  deriving DecidableEq, Repr

/-- `SWASHES._compute`: `subprocess.run(..., check=True)` raises
`CalledProcessError` exactly when the return code is non-zero, and the
handler re-raises `RuntimeError` carrying `cperr.stderr.strip()` and
`self.params`; otherwise the captured stdout is kept.  Output on stderr
alone is never checked. -/
def compute (params : List ℚ) (proc : ProcResult) : Except PyError String :=
  if proc.returncode ≠ 0 then .error (.runtimeError (pyStrip proc.stderr) params)
  else .ok proc.stdout

/-! ## Table accessors: `csv`, `dataframe`, `np_array`

The dataframe library (pandas) is, per the design, pure transport: a
delimited-text-to-table reader.  `read_csv` is modelled as splitting
the text on line feeds and each line on commas, keeping the cell
tokens as strings (the numeric conversion it performs is irrelevant to
every claim below).  `os.linesep` is a parameter of `csvOf`; the
dataframe pipeline fixes it to "\n" (the POSIX value; the reader
accepts both line-end conventions, so the parsed table is the same on
either platform). -/

/-- Python `','.join(line)`. -/
def joinComma (l : List String) : String := joinSep "," l

/-- `SWASHES.csv`: build `csv_lines` by appending `','.join(line)` for
every result row, then join with the line separator. -/
def csvOf (linesep : String) (results : List (List String)) : String :=
  let csvLines := results.foldl (fun acc line => acc ++ [joinComma line]) []
  joinSep linesep csvLines

/-- Split a csv text back into a token table: lines on `'\n'`, cells on `','`. -/
def parseCsv (text : String) : List (List String) :=
  (splitOnChar '\n' text.toList).map (fun l => (splitOnChar ',' l).map String.mk)

/-- The token table behind `dataframe()`: `read_csv(StringIO(self.csv()))`.
Row 0 is the header; the index-column choice only relabels columns and
is applied at the point of use. -/
def dataframeTable (results : List (List String)) : List (List String) :=
  parseCsv (csvOf "\n" results)

/-- `SWASHES.cols`: `self.results[0]`; an empty results list raises
`IndexError`. -/
def colsFn (results : List (List String)) : Except PyError (List String) :=
  match results with
  | [] => .error .indexError
  | r :: _ => .ok r

/-- Index of a name in a header row. -/
def idxOfStr : List String → String → Option Nat
  | [], _ => none
  | h :: t, k => if h == k then some 0 else (idxOfStr t k).map (· + 1)

/-- `SWASHES.np_array` (base class, used by the 1-D and pseudo-2-D
variants): check `value in self.cols()`, then read the named column of
`self.dataframe()`.  `read_csv(..., index_col=0)` turns the first
column into the index, so the data columns are the header minus its
first entry; looking up the index name itself would raise `KeyError`.
The final `assert ndarray.ndim in [1, 2]` always holds for a series. -/
def npArrayFn (results : List (List String)) (value : String) :
    Except PyError (List String) :=
  match colsFn results with
  | .error e => .error e
  | .ok cs =>
    if value ∈ cs then
      let t := dataframeTable results
      let header := t.headD []
      let body := t.tail
      match idxOfStr header.tail value with
      | none => .error (.keyError value)
      | some j => .ok (body.map (fun r => (r.get? (j + 1)).getD ""))
    else .error .valueError

/-- The long-format triples `(index value, column value, cell value)`
used by `df.pivot(index=iname, columns=cname, values=vname)`; empty
when one of the three names is missing from the header. -/
def pivotTriples (t : List (List String)) (iname cname vname : String) :
    List (String × String × String) :=
  match idxOfStr (t.headD []) iname, idxOfStr (t.headD []) cname,
      idxOfStr (t.headD []) vname with
  | some ii, some ci, some vi =>
    t.tail.map (fun r => ((r.get? ii).getD "", (r.get? ci).getD "", (r.get? vi).getD ""))
  | _, _, _ => []

/-- Duplicate test on the `(index, column)` pairs of the long table. -/
def hasDupPair : List (String × String) → Bool
  | [] => false
  | p :: rest => rest.contains p || hasDupPair rest

/-- First occurrence of a cell value for a given `(index, column)` pair. -/
def lookupTriple : List (String × String × String) → String → String → Option String
  | [], _, _ => none
  | (a, b, c) :: rest, yv, xv =>
    if a == yv && b == xv then some c else lookupTriple rest yv xv

/-- Deduplicate, keeping the first occurrence of each value. -/
def dedupStr (l : List String) : List String :=
  l.foldl (fun acc xv => if xv ∈ acc then acc else acc ++ [xv]) []

/-- `df.pivot(index=iname, columns=cname, values=vname).values`: a
missing name raises `KeyError`, duplicate `(index, columns)` pairs
raise `ValueError`, otherwise the dense matrix holds one row per
distinct index value and one column per distinct columns value
(a combination absent from the long table is a NaN hole, `none` here).
The row/column ordering is immaterial to the claims below. -/
def pivotFn (t : List (List String)) (iname cname vname : String) :
    Except PyError (List (List (Option String))) :=
  match idxOfStr (t.headD []) iname with
  | none => .error (.keyError iname)
  | some _ =>
    match idxOfStr (t.headD []) cname with
    | none => .error (.keyError cname)
    | some _ =>
      match idxOfStr (t.headD []) vname with
      | none => .error (.keyError vname)
      | some _ =>
        let trs := pivotTriples t iname cname vname
        if hasDupPair (trs.map (fun tr => (tr.1, tr.2.1))) then .error .valueError
        else
          .ok ((dedupStr (trs.map (fun tr => tr.1))).map
            (fun yv => (dedupStr (trs.map (fun tr => tr.2.1))).map
              (fun xv => lookupTriple trs yv xv)))

/-- `TwoDimensional.np_array`: `self.dataframe().reset_index(drop=False)`
restores the plain parsed table (the two index columns come first in
the csv anyway), then `df.pivot(index=Y, columns=X, values=value).values`.
There is no membership check on `value` here. -/
def npArray2dFn (results : List (List String)) (value : String) :
    Except PyError (List (List (Option String))) :=
  pivotFn (dataframeTable results) Y X value

/-- Distinct index-column (y) values of the pivoted long table. -/
def uniqueYVals (results : List (List String)) (value : String) : List String :=
  dedupStr ((pivotTriples (dataframeTable results) Y X value).map (fun tr => tr.1))

/-- Distinct columns-column (x) values of the pivoted long table. -/
def uniqueXVals (results : List (List String)) (value : String) : List String :=
  dedupStr ((pivotTriples (dataframeTable results) Y X value).map (fun tr => tr.2.1))

/-! ## `OneDimensional.ascii_grid`

Array values are `Option ℚ`: `none` is a NaN entry (NaN has no rational
value), and `arr[np.isnan(arr)] = self.nan_val` replaces it by the
sentinel.  `'%.6f' % v` is modelled as decimal rounding to six places
(half-way cases round up here, while binary floats round to even; no
claim exercises a tie). -/

/-- `self.nan_val = -99999`. -/
def nan_val : Int := -99999

/-- Zero-pad a digit string on the left to `k` digits. -/
def zeroPadTo (k : Nat) (s : String) : String :=
  String.mk (List.replicate (k - s.length) '0') ++ s

/-- `round(q * 10^6)` as an integer, used by the `%.6f` format. -/
def ratRound6 (q : ℚ) : Int :=
  Int.fdiv (Int.add (Int.mul 2 (Int.mul q.num 1000000)) (Int.ofNat q.den))
    (Int.mul 2 (Int.ofNat q.den))

/-- `'%.6f' % q`: fixed format with exactly six decimals. -/
def fmt6 (q : ℚ) : String :=
  let n := ratRound6 q
  (if n < 0 then "-" else "") ++ Nat.repr (n.natAbs / 1000000) ++ "." ++
    zeroPadTo 6 (Nat.repr (n.natAbs % 1000000))

/-- Smallest `k ≤ fuel` with `den ∣ 10 ^ k`. -/
def findPow10 (den : Nat) : Nat → Nat → Option Nat
  | _, 0 => none
  | k, fuel + 1 => if 10 ^ k % den = 0 then some k else findPow10 den (k + 1) fuel

/-- Python `str(float)` for the decimal values in play: an integral
value prints with a trailing `.0`, other decimal values print their
shortest fraction; a denominator that divides no power of ten cannot
arise from `pyFloat` and falls back to a fraction spelling. -/
def decimalRepr (q : ℚ) : String :=
  let sign := if q.num < 0 then "-" else ""
  let n := q.num.natAbs
  match findPow10 q.den 0 40 with
  | some 0 => sign ++ Nat.repr (n / q.den) ++ ".0"
  | some k =>
    let scaled := n * 10 ^ k / q.den
    sign ++ Nat.repr (scaled / 10 ^ k) ++ "." ++ zeroPadTo k (Nat.repr (scaled % 10 ^ k))
  | none => sign ++ Nat.repr n ++ "/" ++ Nat.repr q.den

/-- The `CELLSIZE` header line; `"CELLSIZE {}".format(None)` prints the
text `None` rather than failing. -/
def cellSizeLine : Option ℚ → String
  | none => "CELLSIZE None\n"
  | some d => "CELLSIZE " ++ decimalRepr d ++ "\n"

/-- The first four header lines of the 1-D ascii grid:
`NCOLS`/`NROWS` with their integer values, then the fixed corner lines. -/
def headerLead (nc nr : Int) : String :=
  "NCOLS " ++ Int.repr nc ++ "\nNROWS " ++ Int.repr nr ++
    "\nXLLCORNER 0.0\nYLLCORNER 0.0\n"

/-- The `NODATA_VALUE` header line. -/
def nodataLine : String :=
  "NODATA_VALUE " ++ Int.repr nan_val ++ "\n"

/-- One data row of the grid file: the NaN-replaced values in `%.6f`
format, space-separated, newline-terminated. -/
def gridRow (arr0 : List (Option ℚ)) : String :=
  joinSep " " ((arr0.map (fun v => v.getD ((nan_val : ℤ) : ℚ))).map fmt6) ++ "\n"

/-- The data block written by `np.savetxt`: one line per grid row. -/
def gridBody (grid : List (List (Option ℚ))) : String :=
  concatStrs (grid.map gridRow)

/-- `OneDimensional.ascii_grid` as the written file content.
Steps of the source: replace NaN entries by `nan_val`; lift the 1-D
array to one row and edge-pad it to `nrows` rows (`np.pad` with a
negative pad width, `nrows = 0`, raises `ValueError`); assert the row
count and `int(dom_params['ncellx']) == arr.shape[1]` (an unset
`ncellx` makes `int(None)` raise `TypeError`); format the header;
`np.savetxt(..., fmt='%.6f', header=header, comments='')` writes the
header, a line feed, then the rows. -/
def asciiGrid1D (dp : DomParams) (arr0 : List (Option ℚ)) (nrows : Nat) :
    Except PyError String :=
  if nrows = 0 then .error .valueError
  else
    let grid : List (List (Option ℚ)) := List.replicate nrows arr0
    if grid.length ≠ nrows then .error .assertionError
    else
      match dp.ncellx with
      | none => .error .typeError
      | some ncx =>
        if pyIntOfRat ncx ≠ (arr0.length : Int) then .error .assertionError
        else
          .ok (headerLead (pyIntOfRat ncx) (Int.ofNat nrows) ++
            (cellSizeLine dp.dx ++ (nodataLine ++ ("\n" ++ gridBody grid))))

/-! ## Object state and the derived views (purity)

A constructed solution object: the state a successful `__init__` leaves
behind.  The derived views `csv()`, `dataframe()` and `np_array()` only
read `self.results`; each is modelled as a state-passing function
returning its value and the (unchanged) state. -/

/-- The mutable attributes of a constructed `SWASHES` object that the
derived views can see. -/
structure SolutionState where
  params : List ℚ
  results : List (List String)
  rawComments : List String
  domParams : DomParams
  deriving DecidableEq, Repr

/-- `SWASHES.csv` as a method: reads `self.results`, writes nothing. -/
def csvMethod (linesep : String) (s : SolutionState) : String × SolutionState :=
  (csvOf linesep s.results, s)

/-- `SWASHES.dataframe` as a method: parses `self.csv()`, writes nothing. -/
def dataframeMethod (s : SolutionState) : List (List String) × SolutionState :=
  (dataframeTable s.results, s)

/-- `SWASHES.np_array` as a method: reads `self.results`, writes nothing. -/
def npArrayMethod (s : SolutionState) (value : String) :
    Except PyError (List String) × SolutionState :=
  (npArrayFn s.results value, s)

/-- `TwoDimensional.np_array` as a method: reads `self.results`, writes nothing. -/
def npArray2dMethod (s : SolutionState) (value : String) :
    Except PyError (List (List (Option String))) × SolutionState :=
  (npArray2dFn s.results value, s)

end PySwashes



namespace PySwashes

/-! ## Lemmas about the `_read_output` loop -/

/-- Unfolding of the loop on a list with at least two elements: the
lookahead is assigned to the next line. -/
theorem readOutputGo_cons2 (cols : List (String × String)) (cur r : String)
    (t : List String) (nv : Option String) (cs : List String)
    (rs : List (List String)) :
    readOutputGo cols (cur :: r :: t) nv cs rs =
      if isComment cur then
        (if isComment r then
          readOutputGo cols (r :: t) (some r) (cs ++ [pyStrip (lstripHash cur)]) rs
         else
          match lookupCols cols (pySplitWs (lstripHash cur)) with
          | .error e => .error e
          | .ok hdr => readOutputGo cols (r :: t) (some r) cs (rs ++ [hdr]))
      else readOutputGo cols (r :: t) (some r) cs (rs ++ [pySplitWs cur]) := rfl

/-- Unfolding of the loop on the final line: the lookahead keeps its
previous value. -/
theorem readOutputGo_single (cols : List (String × String)) (cur : String)
    (nv : Option String) (cs : List String) (rs : List (List String)) :
    readOutputGo cols [cur] nv cs rs =
      if isComment cur then
        (match nv with
         | none => .error .unboundLocalError
         | some nl =>
           if isComment nl then .ok (cs ++ [pyStrip (lstripHash cur)], rs)
           else
            match lookupCols cols (pySplitWs (lstripHash cur)) with
            | .error e => .error e
            | .ok hdr => .ok (cs, rs ++ [hdr]))
      else .ok (cs, rs ++ [pySplitWs cur]) := by
  show (if isComment cur then
      match nv with
      | none => (.error .unboundLocalError : Except PyError (List String × List (List String)))
      | some nl =>
        if isComment nl then
          readOutputGo cols [] nv (cs ++ [pyStrip (lstripHash cur)]) rs
        else
          match lookupCols cols (pySplitWs (lstripHash cur)) with
          | .error e => .error e
          | .ok hdr => readOutputGo cols [] nv cs (rs ++ [hdr])
    else readOutputGo cols [] nv cs (rs ++ [pySplitWs cur])) = _
  cases nv <;> simp [readOutputGo]

/-- Every error produced by the header-dictionary mapping is a `KeyError`. -/
theorem lookupCols_error_shape (cols : List (String × String)) :
    ∀ (l : List String) (e : PyError), lookupCols cols l = .error e →
      ∃ t, e = .keyError t := by
  intro l
  induction l with
  | nil => intro e h; simp [lookupCols] at h
  | cons h t ih =>
    intro e he
    unfold lookupCols at he
    cases hl : lookupPairs cols h with
    | none => rw [hl] at he; cases he; exact ⟨h, rfl⟩
    | some v =>
      rw [hl] at he
      cases hr : lookupCols cols t with
      | error e2 => rw [hr] at he; cases he; exact ih _ hr
      | ok vs => rw [hr] at he; cases he

/-- If some token of the header line is missing from the dictionary,
the mapping raises a `KeyError`. -/
theorem lookupCols_missing (cols : List (String × String)) :
    ∀ (l : List String) (tok : String), tok ∈ l →
      lookupPairs cols tok = none →
      ∃ t, lookupCols cols l = .error (.keyError t) := by
  intro l
  induction l with
  | nil => intro tok h; cases h
  | cons h t ih =>
    intro tok hmem hmiss
    unfold lookupCols
    cases hl : lookupPairs cols h with
    | none => exact ⟨h, rfl⟩
    | some v =>
      have htok : tok ∈ t := by
        cases hmem with
        | head => rw [hmiss] at hl; cases hl
        | tail _ hm => exact hm
      obtain ⟨t2, ht2⟩ := ih tok htok hmiss
      rw [ht2]
      exact ⟨t2, rfl⟩

end PySwashes

namespace PySwashes

/-- Core of the last-line analysis: on any run of the loop over a
nonempty line list whose lookahead variable already holds the last line
(or that is long enough to assign it), a successful parse classifies
the final line with the final line itself as its lookahead. -/
theorem readOutputGo_last (cols : List (String × String)) :
    ∀ (lines : List String) (lst : String) (nv : Option String)
      (cs cs2 : List String) (rs rs2 : List (List String)),
      lines.getLast? = some lst →
      (2 ≤ lines.length ∨ nv = some lst) →
      readOutputGo cols lines nv cs rs = .ok (cs2, rs2) →
      (isComment lst = true → cs2.getLast? = some (pyStrip (lstripHash lst))) ∧
      (isComment lst = false → rs2.getLast? = some (pySplitWs lst)) := by
  intro lines
  induction lines with
  | nil => intro lst nv cs cs2 rs rs2 hlast; simp at hlast
  | cons cur rest ih =>
    intro lst nv cs cs2 rs rs2 hlast hnv hok
    cases rest with
    | nil =>
      have hcur : cur = lst := by simpa using hlast
      subst hcur
      have hnv2 : nv = some cur := by
        rcases hnv with h2 | h
        · simp at h2
        · exact h
      subst hnv2
      rw [readOutputGo_single] at hok
      cases hc : isComment cur
      · simp [hc] at hok
        constructor
        · intro ht; simp at ht
        · intro _
          rw [← hok.2]
          exact List.getLast?_concat _
      · simp [hc] at hok
        constructor
        · intro _
          rw [← hok.1]
          exact List.getLast?_concat _
        · intro hf; simp at hf
    | cons r t =>
      have hlast2 : (r :: t).getLast? = some lst := by
        rw [← hlast]; exact List.getLast?_cons_cons.symm
      have hnv2 : 2 ≤ (r :: t).length ∨ (some r : Option String) = some lst := by
        cases t with
        | nil =>
          right
          have : r = lst := by simpa using hlast2
          rw [this]
        | cons a b => left; simp
      rw [readOutputGo_cons2] at hok
      cases hc : isComment cur
      · rw [hc] at hok
        simp only [Bool.false_eq_true, if_false] at hok
        exact ih lst (some r) _ _ _ _ hlast2 hnv2 hok
      · rw [hc] at hok
        simp only [if_true] at hok
        cases hr : isComment r
        · rw [hr] at hok
          simp only [Bool.false_eq_true, if_false] at hok
          cases hlc : lookupCols cols (pySplitWs (lstripHash cur)) with
          | error e => rw [hlc] at hok; cases hok
          | ok hdr =>
            rw [hlc] at hok
            exact ih lst (some r) _ _ _ _ hlast2 hnv2 hok
        · rw [hr] at hok
          simp only [if_true] at hok
          exact ih lst (some r) _ _ _ _ hlast2 hnv2 hok

end PySwashes

namespace PySwashes

/-- Once the lookahead variable holds a value, the loop can never raise
the unbound-variable error. -/
theorem readOutputGo_no_unbound (cols : List (String × String)) :
    ∀ (lines : List String) (x : String) (cs : List String)
      (rs : List (List String)),
      readOutputGo cols lines (some x) cs rs ≠ .error .unboundLocalError := by
  intro lines
  induction lines with
  | nil => intro x cs rs h; simp [readOutputGo] at h
  | cons cur rest ih =>
    intro x cs rs h
    cases rest with
    | nil =>
      rw [readOutputGo_single] at h
      cases hc : isComment cur
      · rw [hc] at h; simp at h
      · rw [hc] at h
        simp only [if_true] at h
        cases hx : isComment x
        · rw [hx] at h
          simp only [Bool.false_eq_true, if_false] at h
          cases hlc : lookupCols cols (pySplitWs (lstripHash cur)) with
          | error e =>
            rw [hlc] at h
            obtain ⟨t2, ht2⟩ := lookupCols_error_shape cols _ e hlc
            rw [ht2] at h
            simp at h
          | ok hdr => rw [hlc] at h; simp at h
        · rw [hx] at h
          simp at h
    | cons r t =>
      rw [readOutputGo_cons2] at h
      cases hc : isComment cur
      · rw [hc] at h
        simp only [Bool.false_eq_true, if_false] at h
        exact ih r _ _ h
      · rw [hc] at h
        simp only [if_true] at h
        cases hr : isComment r
        · rw [hr] at h
          simp only [Bool.false_eq_true, if_false] at h
          cases hlc : lookupCols cols (pySplitWs (lstripHash cur)) with
          | error e =>
            rw [hlc] at h
            obtain ⟨t2, ht2⟩ := lookupCols_error_shape cols _ e hlc
            rw [ht2] at h
            simp at h
          | ok hdr => rw [hlc] at h; exact ih r _ _ h
        · rw [hr] at h
          simp only [if_true] at h
          exact ih r _ _ h

/-- Core of the unknown-label analysis: if some line of the remaining
input is classified as the header line (a comment line with a
non-comment successor) and carries a token missing from the dictionary,
the loop ends in a `KeyError`. -/
theorem readOutputGo_unknown_label (cols : List (String × String)) (tok : String) :
    ∀ (lines : List String) (i : Nat) (nv : Option String)
      (cs : List String) (rs : List (List String)),
      i + 1 < lines.length →
      isComment (lines.getD i "") = true →
      isComment (lines.getD (i + 1) "") = false →
      tok ∈ pySplitWs (lstripHash (lines.getD i "")) →
      lookupPairs cols tok = none →
      ∃ t, readOutputGo cols lines nv cs rs = .error (.keyError t) := by
  intro lines
  induction lines with
  | nil => intro i nv cs rs hi; simp at hi
  | cons cur rest ih =>
    intro i nv cs rs hi hc hn htok hmiss
    cases rest with
    | nil => simp at hi
    | cons r t =>
      cases i with
      | zero =>
        simp only [List.getD_cons_zero, List.getD_cons_succ] at hc hn htok
        obtain ⟨t2, ht2⟩ := lookupCols_missing cols _ tok htok hmiss
        refine ⟨t2, ?_⟩
        rw [readOutputGo_cons2, hc, hn, ht2]
        simp
      | succ j =>
        have hi2 : j + 1 < (r :: t).length := by
          simp only [List.length_cons] at hi ⊢
          omega
        have hc2 : isComment ((r :: t).getD j "") = true := by
          simpa using hc
        have hn2 : isComment ((r :: t).getD (j + 1) "") = false := by
          simpa using hn
        have htok2 : tok ∈ pySplitWs (lstripHash ((r :: t).getD j "")) := by
          simpa using htok
        rw [readOutputGo_cons2]
        cases hcc : isComment cur
        · simp only [Bool.false_eq_true, if_false]
          exact ih j (some r) _ _ hi2 hc2 hn2 htok2 hmiss
        · simp only [if_true]
          cases hrr : isComment r
          · simp only [Bool.false_eq_true, if_false]
            cases hlc : lookupCols cols (pySplitWs (lstripHash cur)) with
            | error e =>
              obtain ⟨t2, ht2⟩ := lookupCols_error_shape cols _ e hlc
              exact ⟨t2, by rw [ht2]⟩
            | ok hdr => exact ih j (some r) _ _ hi2 hc2 hn2 htok2 hmiss
          · simp only [if_true]
            exact ih j (some r) _ _ hi2 hc2 hn2 htok2 hmiss

end PySwashes

namespace PySwashes

/-- Claim C1, counterexample.  On the raw output whose two lines are
both the comment line containing the known label, the claim as stated
says the trailing comment line is treated as the column-header line,
which would map it through the dictionary and emit the header row
(results would be the table with header row containing the canonical
name of that label).  The code instead gives the last line itself as
its own lookahead, so the trailing comment line is accumulated as a
metadata comment and the results list stays empty. -/
theorem trailing_comment_kept_as_metadata :
    readOutput COLS ["#(i-0.5)*dx", "#(i-0.5)*dx"] =
      .ok (["(i-0.5)*dx", "(i-0.5)*dx"], []) := by decide

/-- Claim C1, amended.  For every raw stdout of at least two lines, the
very last line is classified with the last line itself as its
lookahead: on a successful parse, a trailing comment-marked line is
accumulated as the last metadata comment (never treated as the
column-header line), and a trailing non-comment line becomes the last
data row. -/
theorem last_line_self_lookahead (cols : List (String × String))
    (lines : List String) (lst : String) (cs2 : List String)
    (rs2 : List (List String)) (h2 : 2 ≤ lines.length)
    (hlast : lines.getLast? = some lst)
    (hok : readOutput cols lines = .ok (cs2, rs2)) :
    (isComment lst = true → cs2.getLast? = some (pyStrip (lstripHash lst))) ∧
    (isComment lst = false → rs2.getLast? = some (pySplitWs lst)) :=
  readOutputGo_last cols lines lst none [] cs2 [] rs2 hlast (Or.inl h2) hok

/-- Witness for the amended claim C1 at a concrete input. -/
theorem last_line_self_lookahead_witness :
    (2 ≤ (["#a b", "#c"] : List String).length ∧
      (["#a b", "#c"] : List String).getLast? = some "#c" ∧
      readOutput COLS ["#a b", "#c"] = .ok (["a b", "c"], [])) ∧
    ((isComment "#c" = true →
        (["a b", "c"] : List String).getLast? = some (pyStrip (lstripHash "#c"))) ∧
      (isComment "#c" = false →
        ([] : List (List String)).getLast? = some (pySplitWs "#c"))) :=
  ⟨by decide,
    last_line_self_lookahead COLS ["#a b", "#c"] "#c" ["a b", "c"] []
      (by decide) (by decide) (by decide)⟩

/-- Claim C2.  For every raw stdout in which some line is classified as
the column-header line (a comment-marked line whose successor line is
not comment-marked) and carries a column label missing from the
label-to-canonical-name dictionary, parsing the output fails with the
unexpected-column-label error (`KeyError`, the ParseError of the spec),
never silently keeping or dropping the label. -/
theorem unknown_header_label_fails (cols : List (String × String))
    (lines : List String) (i : Nat) (tok : String)
    (hi : i + 1 < lines.length)
    (hc : isComment (lines.getD i "") = true)
    (hn : isComment (lines.getD (i + 1) "") = false)
    (htok : tok ∈ pySplitWs (lstripHash (lines.getD i "")))
    (hmiss : lookupPairs cols tok = none) :
    ∃ t, readOutput cols lines = .error (.keyError t) :=
  readOutputGo_unknown_label cols tok lines i none [] [] hi hc hn htok hmiss

/-- Witness for claim C2 at a concrete input. -/
theorem unknown_header_label_fails_witness :
    (0 + 1 < (["#bogus", "1 2"] : List String).length ∧
      isComment ((["#bogus", "1 2"] : List String).getD 0 "") = true ∧
      isComment ((["#bogus", "1 2"] : List String).getD (0 + 1) "") = false ∧
      "bogus" ∈ pySplitWs (lstripHash ((["#bogus", "1 2"] : List String).getD 0 "")) ∧
      lookupPairs COLS "bogus" = none) ∧
    (∃ t, readOutput COLS ["#bogus", "1 2"] = .error (.keyError t)) :=
  ⟨by decide,
    unknown_header_label_fails COLS ["#bogus", "1 2"] 0 "bogus"
      (by decide) (by decide) (by decide) (by decide) (by decide)⟩

/-- Claim C10.  The parser never reads the lookahead variable unbound on
an input of at least two lines, but a single-line raw output consisting
of one comment-marked line reads `next_line` before it was ever
assigned, so parsing fails with the unbound-variable error instead of
producing a result table. -/
theorem parser_unbound_lookahead (cols : List (String × String))
    (lines : List String) (h2 : 2 ≤ lines.length) :
    readOutput cols lines ≠ .error .unboundLocalError ∧
    readOutput cols ["#x depth"] = .error .unboundLocalError := by
  constructor
  · match lines, h2 with
    | a :: b :: t, _ =>
      intro h
      rw [readOutput, readOutputGo_cons2] at h
      cases hc : isComment a
      · rw [hc] at h
        simp only [Bool.false_eq_true, if_false] at h
        exact readOutputGo_no_unbound cols _ b _ _ h
      · rw [hc] at h
        simp only [if_true] at h
        cases hb : isComment b
        · rw [hb] at h
          simp only [Bool.false_eq_true, if_false] at h
          cases hlc : lookupCols cols (pySplitWs (lstripHash a)) with
          | error e =>
            rw [hlc] at h
            obtain ⟨t2, ht2⟩ := lookupCols_error_shape cols _ e hlc
            rw [ht2] at h
            simp at h
          | ok hdr =>
            rw [hlc] at h
            exact readOutputGo_no_unbound cols _ b _ _ h
        · rw [hb] at h
          simp only [if_true] at h
          exact readOutputGo_no_unbound cols _ b _ _ h
  · rw [readOutput, readOutputGo_single]
    have hc : isComment "#x depth" = true := by decide
    rw [hc]
    rfl

/-- Witness for claim C10 at a concrete input. -/
theorem parser_unbound_lookahead_witness :
    (2 ≤ (["# meta", "1 2"] : List String).length) ∧
    (readOutput COLS ["# meta", "1 2"] ≠ .error .unboundLocalError ∧
      readOutput COLS ["#x depth"] = .error .unboundLocalError) :=
  ⟨by decide, parser_unbound_lookahead COLS ["# meta", "1 2"] (by decide)⟩

end PySwashes

namespace PySwashes

/-- Claim C6, counterexample.  A process that exits with code 0 while
producing error output on stderr does not make the invoker fail: the
captured stdout is returned.  The claim as stated requires an
ExternalToolError whenever any error output is produced. -/
theorem stderr_without_failure_returns_stdout :
    ((⟨0, "out", "err"⟩ : ProcResult).stderr ≠ "") ∧
    compute [1] ⟨0, "out", "err"⟩ = .ok "out" := by decide

/-- Claim C6, amended.  The invoker fails with the external-tool error
(carrying the stripped captured stderr text and the invocation
parameters) exactly when the process exits non-zero; on a zero exit
the captured stdout is returned regardless of any stderr output. -/
theorem compute_error_iff_nonzero_exit (params : List ℚ) (proc : ProcResult) :
    (proc.returncode ≠ 0 →
      compute params proc = .error (.runtimeError (pyStrip proc.stderr) params)) ∧
    (proc.returncode = 0 → compute params proc = .ok proc.stdout) := by
  constructor
  · intro h; simp [compute, h]
  · intro h; simp [compute, h]

/-- Witness for the amended claim C6 at a concrete input. -/
theorem compute_error_iff_nonzero_exit_witness :
    compute [2] ⟨1, "o", " boom "⟩ = .error (.runtimeError "boom" [2]) :=
  (compute_error_iff_nonzero_exit [2] ⟨1, "o", " boom "⟩).1 (by decide)

/-- Claim C7: the code slips on its own stated intent.  The 2-D check is
`int(dimension) == 2 and not num_cell_y`, and Python truthiness makes
`not num_cell_y` false for every negative integer, so a construction
call with `dimension = 2` and `num_cell_y = -1` passes the whole input
sanity check (first conjunct: `checkInit` succeeds and the solver would
then be invoked with `-1`), even though the error message of that very
check demands a positive `num_cell_y`.  Absent (`None`) and zero values
are rejected as the claim says (second and third conjuncts). -/
theorem negative_ncelly_passes_validation :
    checkInit 2 1 1 1 10 (some (-1)) = .ok [2, 1, 1, 1, 10, -1] ∧
    checkInit 2 1 1 1 10 none = .error .valueError ∧
    checkInit 2 1 1 1 10 (some 0) = .error .valueError := by decide

/-- Claim C8, counterexample.  First conjunct: a query without cellsY
(five parameters) whose output metadata nevertheless records a
cellcount-y runs the cellcount-y check anyway and fails with
`IndexError` on `params[5]` — the claim says no check is performed
when cellsY was not supplied.  Second conjunct: a query with cellsY
supplied whose metadata lacks cellcount-y performs no cellcount-y
check at all and construction succeeds — the claim says the check is
performed exactly when cellsY was supplied. -/
theorem ncelly_check_follows_parsed_metadata :
    readComments ["Number of cells in x: 10", "Number of cells in y: 7"] [1, 1, 1, 1, 10]
      = .error .indexError ∧
    readComments ["Number of cells in x: 10"] [2, 1, 1, 1, 10, 5]
      = .ok ({ ncellx := some 10 }, none) := by decide

/-- Claim C8, amended.  After the comment scan, construction succeeds
exactly when the parsed cellcount-x equals `params[4]` and, whenever
the parsed metadata recorded a cellcount-y (and only then), that value
equals `params[5]`; the gate of the cellcount-y assertion is the parsed
`dom_params['ncelly']`, not whether the query supplied cellsY. -/
theorem ncelly_check_iff_parsed (comments : List String) (params : List ℚ)
    (dp : DomParams) (g : Option String) (p4 : ℚ)
    (hscan : scanComments params comments = .ok (dp, g))
    (h4 : params.get? 4 = some p4) :
    (∃ r, readComments comments params = .ok r) ↔
      (dp.ncellx = some p4 ∧
        (dp.ncelly = none ∨
          ∃ yv, dp.ncelly = some yv ∧ params.get? 5 = some yv)) := by
  have hrc : readComments comments params =
      (match finalAsserts dp params with
       | .error e => .error e
       | .ok _ => .ok (dp, g)) := by
    unfold readComments
    rw [hscan]
  have hfa : finalAsserts dp params =
      (if dp.ncellx ≠ some p4 then .error .assertionError
       else
        match dp.ncelly with
        | none => .ok ()
        | some ny =>
          match params.get? 5 with
          | none => .error .indexError
          | some p5 => if ny = p5 then .ok () else .error .assertionError) := by
    unfold finalAsserts
    rw [h4]
  rw [hrc, hfa]
  constructor
  · rintro ⟨r, hr⟩
    by_cases hx : dp.ncellx = some p4
    · refine ⟨hx, ?_⟩
      rw [if_neg (fun hcon => hcon hx)] at hr
      cases hy : dp.ncelly with
      | none => exact Or.inl rfl
      | some yv =>
        rw [hy] at hr
        cases h5 : params.get? 5 with
        | none => rw [h5] at hr; cases hr
        | some p5 =>
          rw [h5] at hr
          by_cases he : yv = p5
          · exact Or.inr ⟨yv, rfl, by rw [he]⟩
          · simp [he] at hr
    · rw [if_pos hx] at hr; cases hr
  · rintro ⟨hx, hy⟩
    rw [if_neg (fun hcon => hcon hx)]
    rcases hy with hnone | ⟨yv, hyv, h5⟩
    · rw [hnone]
      exact ⟨(dp, g), rfl⟩
    · rw [hyv, h5]
      exact ⟨(dp, g), by simp⟩

/-- Witness for the amended claim C8 at a concrete input. -/
theorem ncelly_check_iff_parsed_witness :
    (scanComments [2, 1, 1, 1, 2, 2]
        ["Number of cells in x: 2", "Number of cells in y: 2"]
        = .ok (({ ncellx := some 2, ncelly := some 2 } : DomParams), (none : Option String)) ∧
      ([2, 1, 1, 1, 2, 2] : List ℚ).get? 4 = some 2) ∧
    ((∃ r, readComments ["Number of cells in x: 2", "Number of cells in y: 2"]
        [2, 1, 1, 1, 2, 2] = .ok r) ↔
      (({ ncellx := some 2, ncelly := some 2 } : DomParams).ncellx = some 2 ∧
        (({ ncellx := some 2, ncelly := some 2 } : DomParams).ncelly = none ∨
          ∃ yv, ({ ncellx := some 2, ncelly := some 2 } : DomParams).ncelly = some yv ∧
            ([2, 1, 1, 1, 2, 2] : List ℚ).get? 5 = some yv))) :=
  ⟨by decide,
    ncelly_check_iff_parsed ["Number of cells in x: 2", "Number of cells in y: 2"]
      [2, 1, 1, 1, 2, 2] { ncellx := some 2, ncelly := some 2 } none 2
      (by decide) (by decide)⟩

end PySwashes

namespace PySwashes

/-- The accumulator loop building `csv_lines` is the map of the
comma-join over the rows. -/
theorem foldl_append_joinComma :
    ∀ (l : List (List String)) (acc : List String),
      l.foldl (fun acc line => acc ++ [joinComma line]) acc = acc ++ l.map joinComma := by
  intro l
  induction l with
  | nil => intro acc; simp
  | cons h t ih => intro acc; simp [ih]

/-- Claim C9.  `csv()` returns exactly the rows of the result table with
tokens joined by commas and rows joined by the line separator; the
derived views (`csv`, `dataframe`, `np_array` of both variants) leave
the object state — result table and domain parameters included —
unchanged, so two successive `csv()` calls return equal strings. -/
theorem derived_views_pure (linesep : String) (s : SolutionState) (v : String) :
    (csvMethod linesep s).1 = joinSep linesep (s.results.map joinComma) ∧
    (csvMethod linesep s).2 = s ∧
    (dataframeMethod s).2 = s ∧
    (npArrayMethod s v).2 = s ∧
    (npArray2dMethod s v).2 = s ∧
    (csvMethod linesep ((csvMethod linesep s).2)).1 = (csvMethod linesep s).1 := by
  refine ⟨?_, rfl, rfl, rfl, rfl, rfl⟩
  show csvOf linesep s.results = _
  unfold csvOf
  rw [foldl_append_joinComma s.results []]
  simp

/-- Witness for claim C9 at a concrete state. -/
theorem derived_views_pure_witness :
    (csvMethod "\n" ⟨[1], [["x", "depth"], ["1", "2"]], ["c"], {}⟩).1 =
        joinSep "\n" ((⟨[1], [["x", "depth"], ["1", "2"]], ["c"], {}⟩ :
          SolutionState).results.map joinComma) ∧
    (csvMethod "\n" ⟨[1], [["x", "depth"], ["1", "2"]], ["c"], {}⟩).2 =
        ⟨[1], [["x", "depth"], ["1", "2"]], ["c"], {}⟩ ∧
    (dataframeMethod ⟨[1], [["x", "depth"], ["1", "2"]], ["c"], {}⟩).2 =
        ⟨[1], [["x", "depth"], ["1", "2"]], ["c"], {}⟩ ∧
    (npArrayMethod ⟨[1], [["x", "depth"], ["1", "2"]], ["c"], {}⟩ "depth").2 =
        ⟨[1], [["x", "depth"], ["1", "2"]], ["c"], {}⟩ ∧
    (npArray2dMethod ⟨[1], [["x", "depth"], ["1", "2"]], ["c"], {}⟩ "depth").2 =
        ⟨[1], [["x", "depth"], ["1", "2"]], ["c"], {}⟩ ∧
    (csvMethod "\n" ((csvMethod "\n"
        ⟨[1], [["x", "depth"], ["1", "2"]], ["c"], {}⟩).2)).1 =
      (csvMethod "\n" ⟨[1], [["x", "depth"], ["1", "2"]], ["c"], {}⟩).1 :=
  derived_views_pure "\n" ⟨[1], [["x", "depth"], ["1", "2"]], ["c"], {}⟩ "depth"

/-- A name absent from a row has no index in it. -/
theorem idxOfStr_none : ∀ (l : List String) (v : String), v ∉ l → idxOfStr l v = none := by
  intro l
  induction l with
  | nil => intro v _; rfl
  | cons h t ih =>
    intro v hv
    unfold idxOfStr
    have hne : (h == v) = false := by
      refine beq_eq_false_iff_ne.mpr ?_
      intro he
      exact hv (he ▸ List.mem_cons_self h t)
    rw [hne]
    simp [ih v (fun hm => hv (List.mem_cons_of_mem h hm))]

/-- Claim C5, counterexample.  A fully constructed 2-D solution (the
whole pipeline succeeds on the shown raw output) whose `np_array` is
asked for an unknown value name fails with `KeyError` raised inside the
pivot, not with the `ValueError` (InvalidArgument) the claim requires
for every dimension variant. -/
theorem unknown_value_keyError_2d :
    readOutput COLS2D ["#Dimension: 2", "#Number of cells in x: 1",
        "#Number of cells in y: 1", "#(i-0.5)*dx (j-0.5)*dy h[i][j]", "1 1 0.5"]
      = .ok (["Dimension: 2", "Number of cells in x: 1", "Number of cells in y: 1"],
          [["x", "y", "depth"], ["1", "1", "0.5"]]) ∧
    readComments ["Dimension: 2", "Number of cells in x: 1", "Number of cells in y: 1"]
        [2, 1, 1, 1, 1, 1]
      = .ok (({ ncellx := some 1, ncelly := some 1 } : DomParams), (none : Option String)) ∧
    npArray2dFn [["x", "y", "depth"], ["1", "1", "0.5"]] "bogus"
      = .error (.keyError "bogus") := by decide

/-- Claim C5, amended.  The base-class `np_array` (1-D and pseudo-2-D
variants), on an object whose result table is nonempty, fails with
`ValueError` (InvalidArgument) for a name outside the table columns;
the overridden 2-D `np_array` performs no membership check and instead
fails with a `KeyError` from the pivot whenever the requested name (or
a coordinate column) is missing from the parsed header. -/
theorem unknown_value_invalid_argument (results : List (List String))
    (r0 : List String) (hh : results.head? = some r0) (value : String)
    (hv : value ∉ r0)
    (results2 : List (List String)) (hdr2 : List String)
    (hh2 : (dataframeTable results2).head? = some hdr2)
    (value2 : String) (hv2 : value2 ∉ hdr2) :
    npArrayFn results value = .error .valueError ∧
    ∃ t, npArray2dFn results2 value2 = .error (.keyError t) := by
  constructor
  · cases results with
    | nil => cases hh
    | cons r rest =>
      have hr : r = r0 := by simpa using hh
      subst hr
      simp [npArrayFn, colsFn, hv]
  · cases ht : dataframeTable results2 with
    | nil => rw [ht] at hh2; cases hh2
    | cons hd tl =>
      have hhd : hd = hdr2 := by rw [ht] at hh2; simpa using hh2
      subst hhd
      cases hy : idxOfStr hd Y with
      | none =>
        refine ⟨Y, ?_⟩
        simp [npArray2dFn, pivotFn, ht, hy]
      | some iy =>
        cases hx : idxOfStr hd X with
        | none =>
          refine ⟨X, ?_⟩
          simp [npArray2dFn, pivotFn, ht, hy, hx]
        | some ix =>
          refine ⟨value2, ?_⟩
          simp [npArray2dFn, pivotFn, ht, hy, hx, idxOfStr_none hd value2 hv2]

/-- Witness for the amended claim C5 at concrete inputs. -/
theorem unknown_value_invalid_argument_witness :
    ((([["x", "depth"], ["100", "0.7"]] : List (List String)).head? = some ["x", "depth"] ∧
      "bogus" ∉ (["x", "depth"] : List String) ∧
      (dataframeTable [["x", "y", "depth"], ["1", "1", "0.5"]]).head? = some ["x", "y", "depth"] ∧
      "wrong" ∉ (["x", "y", "depth"] : List String)) ∧
    (npArrayFn [["x", "depth"], ["100", "0.7"]] "bogus" = .error .valueError ∧
      ∃ t, npArray2dFn [["x", "y", "depth"], ["1", "1", "0.5"]] "wrong"
        = .error (.keyError t))) :=
  ⟨by decide,
    unknown_value_invalid_argument _ ["x", "depth"] (by decide) "bogus" (by decide)
      _ ["x", "y", "depth"] (by decide) "wrong" (by decide)⟩

end PySwashes

namespace PySwashes

/-- Successful pivots produce exactly the dense matrix with one row per
distinct index value and one column per distinct columns value. -/
theorem pivotFn_ok_shape (t : List (List String)) (iname cname vname : String)
    (m : List (List (Option String)))
    (hm : pivotFn t iname cname vname = .ok m) :
    m = (dedupStr ((pivotTriples t iname cname vname).map (fun tr => tr.1))).map
      (fun yv => (dedupStr ((pivotTriples t iname cname vname).map (fun tr => tr.2.1))).map
        (fun xv => lookupTriple (pivotTriples t iname cname vname) yv xv)) := by
  unfold pivotFn at hm
  cases h1 : idxOfStr (t.headD []) iname with
  | none => rw [h1] at hm; cases hm
  | some i1 =>
    rw [h1] at hm
    cases h2 : idxOfStr (t.headD []) cname with
    | none => rw [h2] at hm; cases hm
    | some i2 =>
      rw [h2] at hm
      cases h3 : idxOfStr (t.headD []) vname with
      | none => rw [h3] at hm; cases hm
      | some i3 =>
        rw [h3] at hm
        by_cases hd :
            hasDupPair ((pivotTriples t iname cname vname).map (fun tr => (tr.1, tr.2.1))) = true
        · rw [if_pos hd] at hm; cases hm
        · rw [if_neg hd] at hm
          cases hm
          rfl

/-- Claim C4, counterexample.  A fully constructed 2-D solution whose
metadata records 2 cells in each direction (matching the query) but
whose data block holds a single row: the pivoted depth matrix is the
1-by-1 matrix, not the 2-by-2 shape recorded in DomainParams that the
claim requires for every successfully constructed 2-D query. -/
theorem np_array_2d_shape_not_enforced :
    readOutput COLS2D ["#Dimension: 2", "#Number of cells in x: 2",
        "#Number of cells in y: 2", "#(i-0.5)*dx (j-0.5)*dy h[i][j]", "1 1 0.5"]
      = .ok (["Dimension: 2", "Number of cells in x: 2", "Number of cells in y: 2"],
          [["x", "y", "depth"], ["1", "1", "0.5"]]) ∧
    readComments ["Dimension: 2", "Number of cells in x: 2", "Number of cells in y: 2"]
        [2, 1, 1, 1, 2, 2]
      = .ok (({ ncellx := some 2, ncelly := some 2 } : DomParams), (none : Option String)) ∧
    ({ ncellx := some 2, ncelly := some 2 } : DomParams).ncelly = some 2 ∧
    npArray2dFn [["x", "y", "depth"], ["1", "1", "0.5"]] DEPTH = .ok [[some "0.5"]] ∧
    (([[some "0.5"]] : List (List (Option String))).length : ℚ) ≠ 2 := by decide

/-- Claim C4, amended.  A successful 2-D `np_array(value)` returns the
dense matrix with rows indexed by the distinct y-coordinates and
columns by the distinct x-coordinates of the pivoted long-format
table; its shape equals `(cellcount-y, cellcount-x)` as recorded in
DomainParams exactly on those outputs whose table carries cellcount-y
distinct y values and cellcount-x distinct x values (as genuine solver
output does) — construction itself does not enforce that match. -/
theorem np_array_2d_shape (results : List (List String)) (value : String)
    (m : List (List (Option String))) (dp : DomParams) (ny nx : ℚ)
    (hm : npArray2dFn results value = .ok m)
    (hdpy : dp.ncelly = some ny) (hdpx : dp.ncellx = some nx)
    (hcy : ((uniqueYVals results value).length : ℚ) = ny)
    (hcx : ((uniqueXVals results value).length : ℚ) = nx) :
    (m.length : ℚ) = ny ∧ ∀ r ∈ m, (r.length : ℚ) = nx := by
  have hshape := pivotFn_ok_shape (dataframeTable results) Y X value m hm
  constructor
  · rw [← hcy, hshape]
    simp [uniqueYVals]
  · intro r hr
    rw [← hcx]
    rw [hshape] at hr
    simp only [List.mem_map] at hr
    obtain ⟨yv, _, hre⟩ := hr
    rw [← hre]
    simp [uniqueXVals]

/-- Witness for the amended claim C4 at a concrete full-grid table. -/
theorem np_array_2d_shape_witness :
    (npArray2dFn [["x", "y", "depth"], ["1", "1", "a"], ["1", "2", "b"],
        ["2", "1", "c"], ["2", "2", "d"]] DEPTH
      = .ok [[some "a", some "c"], [some "b", some "d"]] ∧
      ({ ncellx := some 2, ncelly := some 2 } : DomParams).ncelly = some 2 ∧
      ({ ncellx := some 2, ncelly := some 2 } : DomParams).ncellx = some 2 ∧
      ((uniqueYVals [["x", "y", "depth"], ["1", "1", "a"], ["1", "2", "b"],
        ["2", "1", "c"], ["2", "2", "d"]] DEPTH).length : ℚ) = 2 ∧
      ((uniqueXVals [["x", "y", "depth"], ["1", "1", "a"], ["1", "2", "b"],
        ["2", "1", "c"], ["2", "2", "d"]] DEPTH).length : ℚ) = 2) ∧
    ((([[some "a", some "c"], [some "b", some "d"]] :
        List (List (Option String))).length : ℚ) = 2 ∧
      ∀ r ∈ ([[some "a", some "c"], [some "b", some "d"]] :
        List (List (Option String))), (r.length : ℚ) = 2) :=
  ⟨by decide,
    np_array_2d_shape [["x", "y", "depth"], ["1", "1", "a"], ["1", "2", "b"],
        ["2", "1", "c"], ["2", "2", "d"]] DEPTH
      [[some "a", some "c"], [some "b", some "d"]]
      { ncellx := some 2, ncelly := some 2 } 2 2
      (by decide) (by decide) (by decide) (by decide) (by decide)⟩

end PySwashes

namespace PySwashes

/-- Claim C3.  For every 1-D array of length 5 (NaN entries replaced by
the sentinel inside the export), grid export with the default minimum
of 3 rows writes the file whose header opens with `NCOLS 5` and
`NROWS 3`, continues with the corner, cell-size and
`NODATA_VALUE -99999` lines, and is followed — after the blank line
produced by the trailing header newline — by exactly three identical
rows, each the edge-replicated input row in six-decimal fixed
format. -/
theorem ascii_grid_1d_export (dp : DomParams) (arr0 : List (Option ℚ))
    (hx : dp.ncellx = some 5) (h5 : arr0.length = 5) :
    headerLead 5 3 = "NCOLS 5\nNROWS 3\nXLLCORNER 0.0\nYLLCORNER 0.0\n" ∧
    nodataLine = "NODATA_VALUE -99999\n" ∧
    asciiGrid1D dp arr0 3 =
      .ok (headerLead 5 3 ++ (cellSizeLine dp.dx ++ (nodataLine ++
        ("\n" ++ (gridRow arr0 ++ (gridRow arr0 ++ gridRow arr0)))))) := by
  have hint : pyIntOfRat 5 = 5 := by decide
  refine ⟨by decide, by decide, ?_⟩
  simp [asciiGrid1D, hx, h5, hint, gridBody, concatStrs, List.replicate]

/-- Witness for claim C3 at a concrete array and domain. -/
theorem ascii_grid_1d_export_witness :
    (({ ncellx := some 5, dx := some 200 } : DomParams).ncellx = some 5 ∧
      ([some 1, none, some (mkRat 3 2), some 0, some (-2)] : List (Option ℚ)).length = 5) ∧
    (headerLead 5 3 = "NCOLS 5\nNROWS 3\nXLLCORNER 0.0\nYLLCORNER 0.0\n" ∧
      nodataLine = "NODATA_VALUE -99999\n" ∧
      asciiGrid1D { ncellx := some 5, dx := some 200 }
          [some 1, none, some (mkRat 3 2), some 0, some (-2)] 3
        = .ok (headerLead 5 3 ++
            (cellSizeLine ({ ncellx := some 5, dx := some 200 } : DomParams).dx ++
              (nodataLine ++ ("\n" ++
                (gridRow [some 1, none, some (mkRat 3 2), some 0, some (-2)] ++
                  (gridRow [some 1, none, some (mkRat 3 2), some 0, some (-2)] ++
                    gridRow [some 1, none, some (mkRat 3 2), some 0, some (-2)]))))))) :=
  ⟨by decide,
    ascii_grid_1d_export { ncellx := some 5, dx := some 200 }
      [some 1, none, some (mkRat 3 2), some 0, some (-2)] (by decide) (by decide)⟩

end PySwashes
